import Mathlib

/-!
Verification of `create_icons.py` (meet-tracker repository).

The script renders placeholder extension icons: for each size in
{16, 32, 48, 128} and each of two color variants it draws a filled circle
with an outline on a transparent RGBA canvas, draws the letter "M" in white
(centered via a measured bounding box, with a hardcoded-offset fallback when
glyph handling raises), and saves the canvas as a PNG file.

Shallow embedding: the Pillow drawing calls are recorded as a list of draw
operations; the environment `Env` supplies the behavior of the glyph
subsystem (whether it raises, and the bounding box it measures) and of the
file-save call (whether it raises); `main` additionally takes the
`os.path.exists` predicate of the ambient filesystem and returns the trace
of filesystem operations. Python `//` on possibly negative ints is floor
division, embedded as `Int.fdiv`; on naturals it coincides with `Nat.div`.
-/

namespace MeetTracker

/-- The glyph source used by the script: `ImageFont.load_default()` is the
only font ever loaded, so the type has a single constructor. -/
inductive FontKind where
  | defaultFont
deriving DecidableEq, Repr

/-- One Pillow drawing call recorded with its arguments.
`ellipse x0 y0 x1 y1 fill outline width` records
`draw.ellipse([x0, y0, x1, y1], fill=..., outline=..., width=...)`;
`text x y s fill font` records `draw.text((x, y), s, fill=..., font=...)`
(`font = none` for the fallback call that passes no font). -/
inductive DrawOp where
  | ellipse (x0 y0 x1 y1 : Int) (fill : String) (outline : String) (width : Nat)
  | text (x y : Int) (s : String) (fill : String) (font : Option FontKind)
deriving DecidableEq, Repr

/-- Ambient behavior of the libraries the script calls into.
`glyphFails` is true when any step of the glyph block (font load,
`draw.textbbox`, `draw.text`) raises; `bbox s f` is what
`draw.textbbox((0, 0), s, font=f)` returns as `(x0, y0, x1, y1)` when it does
not raise; `saveFails p` is true when `img.save(p, 'PNG')` raises (e.g.
unwritable path). `timestamp` and `randomSeed` model ambient nondeterminism
the script could in principle observe; they exist so that independence from
them is a provable statement. -/
structure Env where
  glyphFails : Bool
  bbox : String → FontKind → Int × Int × Int × Int
  saveFails : String → Bool
  timestamp : Nat
  randomSeed : Nat

/-- The outcome of one successful `create_icon` call: the canvas dimensions
from `Image.new('RGBA', (size, size), (0, 0, 0, 0))`, the recorded draw
operations in order, and the `img.save(output_path, 'PNG')` arguments. -/
structure RenderResult where
  width : Nat
  height : Nat
  ops : List DrawOp
  savedPath : String
  savedFormat : String
deriving DecidableEq, Repr

/-- Embeds `os.path.join(a, b)` for the plain relative components the script
uses. -/
def pathJoin (a b : String) : String := a ++ "/" ++ b

/-- Embeds the font-selection conditional duplicated at lines 28-32 and 53-57
of `create_icons.py`: when `size >= 32` a `font_size = size // 4` is computed
but never used, and both branches call `ImageFont.load_default()`. -/
def fontChoice (size : Nat) : FontKind :=
  if 32 ≤ size then
    let font_size := size / 4
    FontKind.defaultFont
  else
    FontKind.defaultFont

/-- The drawing calls `create_icon` records on its canvas, in order.
Both variant branches of the source are mirrored: each draws its ellipse
with hardcoded colors, then runs the try/except glyph block. On
`env.glyphFails` the except clause draws `"M"` at
`(center - 4, center - 6)` with no font argument; otherwise the bounding box
of `"M"` is measured and the text is drawn at
`(center - text_width // 2, center - text_height // 2)`. -/
def iconOps (env : Env) (size : Nat) (is_active : Bool) : List DrawOp :=
  let center : Nat := size / 2
  let radius : Nat := size / 3
  if is_active then
      let circle := DrawOp.ellipse ((center : Int) - (radius : Int))
        ((center : Int) - (radius : Int)) ((center : Int) + (radius : Int))
        ((center : Int) + (radius : Int)) "#34a853" "#2d7d2d" 2
      let textOp :=
        if env.glyphFails then
          DrawOp.text ((center : Int) - 4) ((center : Int) - 6) "M" "white" none
        else
          let font := fontChoice size
          let text := "M"
          let bbox := env.bbox text font
          let text_width := bbox.2.2.1 - bbox.1
          let text_height := bbox.2.2.2 - bbox.2.1
          let text_x := (center : Int) - text_width.fdiv 2
          let text_y := (center : Int) - text_height.fdiv 2
          DrawOp.text text_x text_y text "white" (some font)
      [circle, textOp]
    else
      let circle := DrawOp.ellipse ((center : Int) - (radius : Int))
        ((center : Int) - (radius : Int)) ((center : Int) + (radius : Int))
        ((center : Int) + (radius : Int)) "#4285f4" "#3367d6" 2
      let textOp :=
        if env.glyphFails then
          DrawOp.text ((center : Int) - 4) ((center : Int) - 6) "M" "white" none
        else
          let font := fontChoice size
          let text := "M"
          let bbox := env.bbox text font
          let text_width := bbox.2.2.1 - bbox.1
          let text_height := bbox.2.2.2 - bbox.2.1
          let text_x := (center : Int) - text_width.fdiv 2
          let text_y := (center : Int) - text_height.fdiv 2
          DrawOp.text text_x text_y text "white" (some font)
      [circle, textOp]

/-- Embeds `create_icon(size, color, is_active, output_path)`: allocate the
`size × size` transparent RGBA canvas, record the draw calls of `iconOps`
(the `color` parameter is never read by the source), then run
`img.save(output_path, 'PNG')`. The save runs outside the try/except block:
its failure is an uncaught exception, embedded as `Except.error`. -/
def create_icon (env : Env) (size : Nat) (color : String) (is_active : Bool)
    (output_path : String) : Except String RenderResult :=
  if env.saveFails output_path then
    Except.error ("cannot save " ++ output_path)
  else
    Except.ok { width := size, height := size, ops := iconOps env size is_active,
                savedPath := output_path, savedFormat := "PNG" }

/-- One recorded filesystem side effect of the driver: `os.makedirs(dir)` or
a file written by `img.save` inside a `create_icon` call (path together with
the rendered content). -/
inductive FsOp where
  | makedirs (dir : String)
  | writeFile (path : String) (content : RenderResult)
deriving DecidableEq, Repr

/-- The fixed size list of `main`: `sizes = [16, 32, 48, 128]`. -/
def sizes : List Nat := [16, 32, 48, 128]

/-- The argument tuples `(size, color, is_active, icon_path)` produced by the
first loop of `main` (normal state icons). -/
def normalCalls : List (Nat × String × Bool × String) :=
  sizes.map (fun size =>
    (size, "#4285f4", false, pathJoin "icons" ("icon" ++ toString size ++ ".png")))

/-- The argument tuples produced by the second loop of `main` (active state
icons). -/
def activeCalls : List (Nat × String × Bool × String) :=
  sizes.map (fun size =>
    (size, "#34a853", true, pathJoin "icons" ("icon" ++ toString size ++ "-active.png")))

/-- The complete sequence of `create_icon` invocations made by `main`:
the first loop over all sizes, then the second loop over all sizes. -/
def driverCalls : List (Nat × String × Bool × String) := normalCalls ++ activeCalls

/-- Runs one `create_icon` invocation and records the file write. -/
def runCall (env : Env) (c : Nat × String × Bool × String) : Except String FsOp :=
  match c with
  | (size, color, is_active, icon_path) => do
    let r ← create_icon env size color is_active icon_path
    pure (FsOp.writeFile icon_path r)

/-- Runs a list of `create_icon` invocations in order; the first uncaught
exception aborts the run, as in the script. -/
def runCalls (env : Env) : List (Nat × String × Bool × String) → Except String (List FsOp)
  | [] => Except.ok []
  | c :: rest => do
    let w ← runCall env c
    let ws ← runCalls env rest
    pure (w :: ws)

/-- Embeds `main()`: create the `icons` directory when `os.path.exists`
reports it absent, then run both loops of `create_icon` calls. The returned
trace lists the filesystem operations in program order. -/
def main (env : Env) (path_exists : String → Bool) : Except String (List FsOp) := do
  let icons_dir := "icons"
  let dir_ops := if path_exists icons_dir then [] else [FsOp.makedirs icons_dir]
  let writes ← runCalls env driverCalls
  pure (dir_ops ++ writes)

/-- The write paths of a trace, in order. -/
def writePaths : List FsOp → List String
  | [] => []
  | FsOp.makedirs _ :: t => writePaths t
  | FsOp.writeFile p _ :: t => p :: writePaths t

/-- The eight output paths named by the specification, in the order the
script writes them. -/
def expectedPaths : List String :=
  ["icons/icon16.png", "icons/icon32.png", "icons/icon48.png", "icons/icon128.png",
   "icons/icon16-active.png", "icons/icon32-active.png", "icons/icon48-active.png",
   "icons/icon128-active.png"]

/-- An RGBA pixel value; `Image.new('RGBA', ..., (0, 0, 0, 0))` initializes
every pixel to `⟨0, 0, 0, 0⟩`. -/
structure RGBA where
  r : Nat
  g : Nat
  b : Nat
  a : Nat
deriving DecidableEq, Repr

/-- The fully transparent pixel the canvas is initialized with. -/
def transparent : RGBA := ⟨0, 0, 0, 0⟩

/-- A canvas as a pixel map. -/
def Canvas : Type := Int × Int → RGBA

/-- A rasterizer: for each drawing primitive, the color it paints at a pixel,
or `none` when the primitive leaves that pixel untouched. Instances stand for
Pillow's actual ellipse and text rasterization; the claims proved below hold
for every rasterizer. -/
structure Raster where
  ellipsePaint : Int → Int → Int → Int → String → String → Nat → Int × Int → Option RGBA
  textPaint : Int → Int → String → String → Option FontKind → Int × Int → Option RGBA

/-- The paint of one recorded draw operation at one pixel. -/
def paintOf (ras : Raster) : DrawOp → Int × Int → Option RGBA
  | DrawOp.ellipse x0 y0 x1 y1 f o w => ras.ellipsePaint x0 y0 x1 y1 f o w
  | DrawOp.text x y s f ft => ras.textPaint x y s f ft

/-- The canvas produced by `Image.new('RGBA', (size, size), (0, 0, 0, 0))`:
every pixel fully transparent. -/
def newCanvas : Canvas := fun _ => transparent

/-- Applying one draw operation: painted pixels take the painted color,
all other pixels keep their previous value. -/
def applyOp (ras : Raster) (c : Canvas) (op : DrawOp) : Canvas :=
  fun p => (paintOf ras op p).getD (c p)

/-- The canvas after replaying a list of recorded draw operations on a fresh
transparent canvas. -/
def renderImage (ras : Raster) (ops : List DrawOp) : Canvas :=
  ops.foldl (applyOp ras) newCanvas

theorem foldl_applyOp_untouched (ras : Raster) (p : Int × Int) :
    ∀ (ops : List DrawOp) (c : Canvas),
      (∀ op ∈ ops, paintOf ras op p = none) →
      (ops.foldl (applyOp ras) c) p = c p := by
  intro ops
  induction ops with
  | nil => intro c _; rfl
  | cons o t ih =>
    intro c h
    have ho : paintOf ras o p = none := h o (by simp)
    have ht : ∀ op ∈ t, paintOf ras op p = none := by
      intro op hop
      exact h op (by simp [hop])
    calc ((o :: t).foldl (applyOp ras) c) p
        = (t.foldl (applyOp ras) (applyOp ras c o)) p := rfl
      _ = (applyOp ras c o) p := ih (applyOp ras c o) ht
      _ = c p := by simp [applyOp, ho]

/-- A concrete healthy environment: glyph handling succeeds, `"M"` measures
a 6 × 8 box, saving succeeds everywhere. -/
def envA : Env :=
  { glyphFails := false, bbox := fun _ _ => (0, 0, 6, 8),
    saveFails := fun _ => false, timestamp := 0, randomSeed := 0 }

/-- Like `envA` but glyph handling raises. -/
def envGlyphFail : Env :=
  { glyphFails := true, bbox := fun _ _ => (0, 0, 6, 8),
    saveFails := fun _ => false, timestamp := 0, randomSeed := 0 }

/-- Like `envA` but every save raises. -/
def envSaveFail : Env :=
  { glyphFails := false, bbox := fun _ _ => (0, 0, 6, 8),
    saveFails := fun _ => true, timestamp := 0, randomSeed := 0 }

/-- Like `envA` but with a different ambient timestamp and random seed. -/
def envB : Env :=
  { glyphFails := false, bbox := fun _ _ => (0, 0, 6, 8),
    saveFails := fun _ => false, timestamp := 999, randomSeed := 123 }

/-- The fallback render result placeholder used to name concrete results. -/
def emptyResult : RenderResult :=
  { width := 0, height := 0, ops := [], savedPath := "", savedFormat := "" }

/-- The concrete result of rendering the size-16 normal icon in `envA`. -/
def rA16 : RenderResult :=
  (create_icon envA 16 "#4285f4" false "icons/icon16.png").toOption.getD emptyResult

theorem create_icon_ok (env : Env) (size : Nat) (color : String) (is_active : Bool)
    (output_path : String) (hsave : env.saveFails output_path = false) :
    create_icon env size color is_active output_path = Except.ok
      { width := size, height := size, ops := iconOps env size is_active,
        savedPath := output_path, savedFormat := "PNG" } := by
  simp [create_icon, hsave]

theorem iconOps_glyphOk (env : Env) (size : Nat) (is_active : Bool)
    (hg : env.glyphFails = false) :
    iconOps env size is_active =
      [DrawOp.ellipse ((size / 2 : Nat) - (size / 3 : Nat) : Int)
        ((size / 2 : Nat) - (size / 3 : Nat) : Int)
        ((size / 2 : Nat) + (size / 3 : Nat) : Int)
        ((size / 2 : Nat) + (size / 3 : Nat) : Int)
        (if is_active then "#34a853" else "#4285f4")
        (if is_active then "#2d7d2d" else "#3367d6") 2,
       DrawOp.text
        (((size / 2 : Nat) : Int) -
          ((env.bbox "M" (fontChoice size)).2.2.1 - (env.bbox "M" (fontChoice size)).1).fdiv 2)
        (((size / 2 : Nat) : Int) -
          ((env.bbox "M" (fontChoice size)).2.2.2 - (env.bbox "M" (fontChoice size)).2.1).fdiv 2)
        "M" "white" (some (fontChoice size))] := by
  cases is_active <;> simp [iconOps, hg]

theorem iconOps_glyphFail (env : Env) (size : Nat) (is_active : Bool)
    (hg : env.glyphFails = true) :
    iconOps env size is_active =
      [DrawOp.ellipse ((size / 2 : Nat) - (size / 3 : Nat) : Int)
        ((size / 2 : Nat) - (size / 3 : Nat) : Int)
        ((size / 2 : Nat) + (size / 3 : Nat) : Int)
        ((size / 2 : Nat) + (size / 3 : Nat) : Int)
        (if is_active then "#34a853" else "#4285f4")
        (if is_active then "#2d7d2d" else "#3367d6") 2,
       DrawOp.text (((size / 2 : Nat) : Int) - 4) (((size / 2 : Nat) : Int) - 6)
        "M" "white" none] := by
  cases is_active <;> simp [iconOps, hg]

theorem runCalls_eq (env : Env) (hsave : ∀ p, env.saveFails p = false) :
    ∀ calls : List (Nat × String × Bool × String),
      runCalls env calls = Except.ok (calls.map (fun c =>
        FsOp.writeFile c.2.2.2
          { width := c.1, height := c.1, ops := iconOps env c.1 c.2.2.1,
            savedPath := c.2.2.2, savedFormat := "PNG" })) := by
  intro calls
  induction calls with
  | nil => rfl
  | cons c rest ih =>
    obtain ⟨size, color, act, p⟩ := c
    simp only [runCalls, runCall, create_icon_ok env size color act p (hsave p), ih]
    rfl

theorem writePaths_append (a b : List FsOp) :
    writePaths (a ++ b) = writePaths a ++ writePaths b := by
  induction a with
  | nil => rfl
  | cons o t ih => cases o <;> simp [writePaths, ih]

/-- The fill and outline color of the first recorded draw operation, when it
is an ellipse. -/
def circleColors (r : RenderResult) : Option (String × String) :=
  match r.ops with
  | DrawOp.ellipse _ _ _ _ f o _ :: _ => some (f, o)
  | _ => none

/-- C2: for every render request with positive integer size, the first draw
operation is a filled circle centered at `(size/2, size/2)` with radius
`size/3` (integer division, as in the source), recorded as the ellipse over
the bounding box `[center - radius, center - radius, center + radius,
center + radius]`, filled with the variant's fill color, outlined in the
variant's outline color, with stroke width 2 pixels. -/
theorem circle_geometry (env : Env) (size : Nat) (color : String) (is_active : Bool)
    (output_path : String) (r : RenderResult) (hpos : 0 < size)
    (h : create_icon env size color is_active output_path = Except.ok r) :
    r.ops.head? = some (DrawOp.ellipse
      ((size / 2 : Nat) - (size / 3 : Nat) : Int)
      ((size / 2 : Nat) - (size / 3 : Nat) : Int)
      ((size / 2 : Nat) + (size / 3 : Nat) : Int)
      ((size / 2 : Nat) + (size / 3 : Nat) : Int)
      (if is_active then "#34a853" else "#4285f4")
      (if is_active then "#2d7d2d" else "#3367d6") 2) := by
  cases hsf : env.saveFails output_path with
  | true => simp [create_icon, hsf] at h
  | false =>
    rw [create_icon_ok env size color is_active output_path hsf] at h
    obtain rfl : _ = r := (Except.ok.injEq _ _).mp h
    cases hg : env.glyphFails with
    | false =>
      rw [iconOps_glyphOk env size is_active hg]
      rfl
    | true =>
      rw [iconOps_glyphFail env size is_active hg]
      rfl

/-- Witness for `circle_geometry` at `envA`, size 16, normal variant:
center 8, radius 5, blue colors. -/
theorem circle_geometry_witness :
    rA16.ops.head? = some (DrawOp.ellipse 3 3 13 13 "#4285f4" "#3367d6" 2) :=
  circle_geometry envA 16 "#4285f4" false "icons/icon16.png" rA16 (by decide) rfl

/-- C4: for every render request in which the glyph subsystem does not fail,
glyph placement measures the bounding box `(x0, y0, x1, y1)` of the string
`"M"`, takes `text_width = x1 - x0` and `text_height = y1 - y0`, and draws at
`(center - text_width // 2, center - text_height // 2)` (Python floor
division, embedded as `Int.fdiv`). -/
theorem glyph_centering (env : Env) (size : Nat) (color : String) (is_active : Bool)
    (output_path : String) (r : RenderResult)
    (hg : env.glyphFails = false)
    (h : create_icon env size color is_active output_path = Except.ok r) :
    r.ops.drop 1 = [DrawOp.text
      (((size / 2 : Nat) : Int) -
        ((env.bbox "M" (fontChoice size)).2.2.1 - (env.bbox "M" (fontChoice size)).1).fdiv 2)
      (((size / 2 : Nat) : Int) -
        ((env.bbox "M" (fontChoice size)).2.2.2 - (env.bbox "M" (fontChoice size)).2.1).fdiv 2)
      "M" "white" (some (fontChoice size))] := by
  cases hsf : env.saveFails output_path with
  | true => simp [create_icon, hsf] at h
  | false =>
    rw [create_icon_ok env size color is_active output_path hsf] at h
    obtain rfl : _ = r := (Except.ok.injEq _ _).mp h
    rw [iconOps_glyphOk env size is_active hg]
    rfl

/-- Witness for `glyph_centering` at `envA`, size 16, normal variant:
the 6 × 8 measured box gives text position `(8 - 3, 8 - 4) = (5, 4)`. -/
theorem glyph_centering_witness :
    rA16.ops.drop 1 = [DrawOp.text 5 4 "M" "white" (some (fontChoice 16))] :=
  glyph_centering envA 16 "#4285f4" false "icons/icon16.png" rA16 rfl rfl

/-- C5: for every render request, the `is_active` flag alone selects the
fixed color pair of the drawn circle: `false` gives blue fill `#4285f4` with
outline `#3367d6`, `true` gives green fill `#34a853` with outline `#2d7d2d`,
whatever the `color` argument is. -/
theorem variant_color_selection (env : Env) (size : Nat) (color : String)
    (is_active : Bool) (output_path : String) (r : RenderResult)
    (h : create_icon env size color is_active output_path = Except.ok r) :
    (is_active = false → circleColors r = some ("#4285f4", "#3367d6")) ∧
    (is_active = true → circleColors r = some ("#34a853", "#2d7d2d")) := by
  cases hsf : env.saveFails output_path with
  | true => simp [create_icon, hsf] at h
  | false =>
    rw [create_icon_ok env size color is_active output_path hsf] at h
    obtain rfl : _ = r := (Except.ok.injEq _ _).mp h
    cases hg : env.glyphFails with
    | false =>
      rw [circleColors, iconOps_glyphOk env size is_active hg]
      cases is_active <;> simp
    | true =>
      rw [circleColors, iconOps_glyphFail env size is_active hg]
      cases is_active <;> simp

/-- Witness for `variant_color_selection` at `envA`, size 16, normal
variant. -/
theorem variant_color_selection_witness :
    (false = false → circleColors rA16 = some ("#4285f4", "#3367d6")) ∧
    (false = true → circleColors rA16 = some ("#34a853", "#2d7d2d")) :=
  variant_color_selection envA 16 "#4285f4" false "icons/icon16.png" rA16 rfl

/-- The concrete result of a call that supplies the fill color `#ff0000`,
different from both variant defaults. -/
def rRed48 : RenderResult :=
  (create_icon envA 48 "#ff0000" false "icons/icon48.png").toOption.getD emptyResult

/-- C6 counterexample: calling the renderer with the supplied fill color
`#ff0000` (different from the variant default) still draws the circle with
the `is_active`-derived colors `#4285f4`/`#3367d6`; the supplied color is
not used, so the claim that the contract supports passing colors directly
is false on the code. -/
theorem color_param_used_cex :
    create_icon envA 48 "#ff0000" false "icons/icon48.png" = Except.ok rRed48 ∧
    circleColors rRed48 = some ("#4285f4", "#3367d6") ∧
    "#4285f4" ≠ "#ff0000" ∧ "#3367d6" ≠ "#ff0000" := by
  refine ⟨rfl, rfl, ?_, ?_⟩ <;> decide

/-- C6 amended: the renderer's single `color` parameter is ignored — the
result is identical whatever color is supplied, and there is no outline
color parameter at all; the circle's colors are always the pair derived
from `is_active`. -/
theorem color_param_ignored (env : Env) (size : Nat) (c1 c2 : String)
    (is_active : Bool) (output_path : String) :
    create_icon env size c1 is_active output_path =
      create_icon env size c2 is_active output_path := rfl

/-- The unconditional font selection: always the default font. -/
def fontChoiceUncond : Nat → FontKind := fun _ => FontKind.defaultFont

/-- C10: the `size >= 32` conditional computes `font_size = size // 4` but
never uses it, and both branches load the same default font, so the
conditional equals the unconditional default-font load at every size; in
particular the chosen glyph source is the same for all four driver sizes. -/
theorem fontChoice_constant :
    (∀ size : Nat, fontChoice size = fontChoiceUncond size) ∧
    sizes.map fontChoice = sizes.map fontChoiceUncond := by
  constructor
  · intro size
    simp only [fontChoice, fontChoiceUncond]
  · rfl

/-- C3: for every render request, if the glyph block fails the renderer
falls back to drawing `"M"` in white at `(center - 4, center - 6)` with no
font, no error is surfaced, and the file is still saved at the requested
path; a save failure (e.g. unwritable output path) is not caught and
propagates as an error. -/
theorem glyph_fallback_and_error_policy :
    (∀ (env : Env) (size : Nat) (color : String) (is_active : Bool) (output_path : String),
      env.glyphFails = true → env.saveFails output_path = false →
      ∃ circ, create_icon env size color is_active output_path = Except.ok
        { width := size, height := size,
          ops := [circ, DrawOp.text (((size / 2 : Nat) : Int) - 4)
            (((size / 2 : Nat) : Int) - 6) "M" "white" none],
          savedPath := output_path, savedFormat := "PNG" }) ∧
    (∀ (env : Env) (size : Nat) (color : String) (is_active : Bool) (output_path : String),
      env.saveFails output_path = true →
      create_icon env size color is_active output_path =
        Except.error ("cannot save " ++ output_path)) := by
  constructor
  · intro env size color is_active output_path hg hs
    refine ⟨DrawOp.ellipse ((size / 2 : Nat) - (size / 3 : Nat) : Int)
      ((size / 2 : Nat) - (size / 3 : Nat) : Int)
      ((size / 2 : Nat) + (size / 3 : Nat) : Int)
      ((size / 2 : Nat) + (size / 3 : Nat) : Int)
      (if is_active then "#34a853" else "#4285f4")
      (if is_active then "#2d7d2d" else "#3367d6") 2, ?_⟩
    rw [create_icon_ok env size color is_active output_path hs,
        iconOps_glyphFail env size is_active hg]
  · intro env size color is_active output_path hs
    simp [create_icon, hs]

/-- Witness for `glyph_fallback_and_error_policy`: in `envGlyphFail` the
size-16 icon is still saved with the fallback text at `(4, 2)`; in
`envSaveFail` the call propagates an error. -/
theorem glyph_fallback_and_error_policy_witness :
    (∃ circ, create_icon envGlyphFail 16 "#4285f4" false "icons/icon16.png" = Except.ok
      { width := 16, height := 16,
        ops := [circ, DrawOp.text 4 2 "M" "white" none],
        savedPath := "icons/icon16.png", savedFormat := "PNG" }) ∧
    create_icon envSaveFail 16 "#4285f4" false "icons/icon16.png" =
      Except.error ("cannot save " ++ "icons/icon16.png") :=
  ⟨glyph_fallback_and_error_policy.1 envGlyphFail 16 "#4285f4" false "icons/icon16.png" rfl rfl,
   glyph_fallback_and_error_policy.2 envSaveFail 16 "#4285f4" false "icons/icon16.png" rfl⟩

/-- C7: for every render request, the canvas is a `size × size` buffer whose
pixels start fully transparent, and a pixel painted by none of the recorded
draw operations (i.e. outside the drawn circle and glyph) is still fully
transparent in the rendered image, for every rasterizer. -/
theorem canvas_transparent_outside (env : Env) (size : Nat) (color : String)
    (is_active : Bool) (output_path : String) (ras : Raster) (r : RenderResult)
    (p : Int × Int)
    (h : create_icon env size color is_active output_path = Except.ok r)
    (hout : ∀ op ∈ r.ops, paintOf ras op p = none) :
    r.width = size ∧ r.height = size ∧ (newCanvas p).a = 0 ∧
    renderImage ras r.ops p = transparent ∧ (renderImage ras r.ops p).a = 0 := by
  cases hsf : env.saveFails output_path with
  | true => simp [create_icon, hsf] at h
  | false =>
    rw [create_icon_ok env size color is_active output_path hsf] at h
    obtain rfl : _ = r := (Except.ok.injEq _ _).mp h
    refine ⟨rfl, rfl, rfl, ?_, ?_⟩
    · exact foldl_applyOp_untouched ras p _ newCanvas hout
    · exact congrArg RGBA.a (foldl_applyOp_untouched ras p _ newCanvas hout)

/-- A concrete box-based rasterizer: the ellipse paints inside its bounding
box, the glyph paints inside an 8 × 8 box at the text position. -/
def ras0 : Raster :=
  { ellipsePaint := fun x0 y0 x1 y1 _ _ _ p =>
      if x0 ≤ p.1 ∧ p.1 ≤ x1 ∧ y0 ≤ p.2 ∧ p.2 ≤ y1 then some ⟨66, 133, 244, 255⟩ else none,
    textPaint := fun x y _ _ _ p =>
      if x ≤ p.1 ∧ p.1 ≤ x + 8 ∧ y ≤ p.2 ∧ p.2 ≤ y + 8 then some ⟨255, 255, 255, 255⟩ else none }

/-- Witness for `canvas_transparent_outside`: the pixel `(0, 15)` of the
size-16 normal icon lies outside both the circle box `[3, 13]²` and the
glyph box, and stays fully transparent. -/
theorem canvas_transparent_outside_witness :
    rA16.width = 16 ∧ rA16.height = 16 ∧ (newCanvas (0, 15)).a = 0 ∧
    renderImage ras0 rA16.ops (0, 15) = transparent ∧
    (renderImage ras0 rA16.ops (0, 15)).a = 0 :=
  canvas_transparent_outside envA 16 "#4285f4" false "icons/icon16.png" ras0 rA16 (0, 15)
    rfl (by decide)

/-- C9: the driver is deterministic — its output trace, including every
rendered image, depends only on the glyph subsystem, the save behavior and
the filesystem, never on the ambient timestamp or random seed; two
environments agreeing on the former produce identical traces. -/
theorem driver_deterministic (e1 e2 : Env) (path_exists : String → Bool)
    (hg : e1.glyphFails = e2.glyphFails) (hb : e1.bbox = e2.bbox)
    (hs : e1.saveFails = e2.saveFails) :
    main e1 path_exists = main e2 path_exists := by
  obtain ⟨g1, b1, s1, t1, r1⟩ := e1
  obtain ⟨g2, b2, s2, t2, r2⟩ := e2
  change g1 = g2 at hg
  change b1 = b2 at hb
  change s1 = s2 at hs
  subst hg
  subst hb
  subst hs
  rfl

/-- Witness for `driver_deterministic`: `envA` and `envB` differ only in
timestamp and random seed and produce the same trace. -/
theorem driver_deterministic_witness :
    main envA (fun _ => false) = main envB (fun _ => false) :=
  driver_deterministic envA envB (fun _ => false) rfl rfl rfl

theorem writePaths_driverCalls (env : Env) :
    writePaths (driverCalls.map (fun c => FsOp.writeFile c.2.2.2
      { width := c.1, height := c.1, ops := iconOps env c.1 c.2.2.1,
        savedPath := c.2.2.2, savedFormat := "PNG" })) = expectedPaths := rfl

/-- C1: every run of the driver whose save calls succeed produces exactly 8
file writes, at the deterministic paths `icons/icon{16,32,48,128}.png` and
`icons/icon{16,32,48,128}-active.png`, and the `icons` directory is created
first — as the first trace operation — exactly when it did not already
exist. -/
theorem driver_output_files (env : Env) (path_exists : String → Bool)
    (hsave : ∀ p, env.saveFails p = false) :
    ∃ t, main env path_exists = Except.ok t ∧
      writePaths t = expectedPaths ∧
      (writePaths t).length = 8 ∧
      (path_exists "icons" = false → ∃ rest, t = FsOp.makedirs "icons" :: rest ∧
        ∀ d, FsOp.makedirs d ∉ rest) ∧
      (path_exists "icons" = true → ∀ d, FsOp.makedirs d ∉ t) := by
  have hrc := runCalls_eq env hsave driverCalls
  refine ⟨(if path_exists "icons" then [] else [FsOp.makedirs "icons"]) ++
    driverCalls.map (fun c => FsOp.writeFile c.2.2.2
      { width := c.1, height := c.1, ops := iconOps env c.1 c.2.2.1,
        savedPath := c.2.2.2, savedFormat := "PNG" }), ?_, ?_, ?_, ?_, ?_⟩
  · simp [main, hrc]
  · cases hpe : path_exists "icons" <;> rfl
  · cases hpe : path_exists "icons" <;> rfl
  · intro hpe
    refine ⟨driverCalls.map (fun c => FsOp.writeFile c.2.2.2
        { width := c.1, height := c.1, ops := iconOps env c.1 c.2.2.1,
          savedPath := c.2.2.2, savedFormat := "PNG" }), ?_, ?_⟩
    · rw [hpe]
      rfl
    · intro d
      simp
  · intro hpe d
    simp [hpe]

/-- Witness for `driver_output_files` at `envA` on a filesystem without the
`icons` directory. -/
theorem driver_output_files_witness :
    ∃ t, main envA (fun _ => false) = Except.ok t ∧
      writePaths t = expectedPaths ∧
      (writePaths t).length = 8 ∧
      ((fun (_ : String) => false) "icons" = false → ∃ rest,
        t = FsOp.makedirs "icons" :: rest ∧ ∀ d, FsOp.makedirs d ∉ rest) ∧
      ((fun (_ : String) => false) "icons" = true → ∀ d, FsOp.makedirs d ∉ t) :=
  driver_output_files envA (fun _ => false) (fun _ => rfl)

/-- The call order the claim describes, modelled from the claim's words:
for each size, the normal call immediately followed by the active call. -/
def claimedCallOrder : List (Nat × String × Bool × String) :=
  sizes.flatMap (fun size =>
    [(size, "#4285f4", false, pathJoin "icons" ("icon" ++ toString size ++ ".png")),
     (size, "#34a853", true, pathJoin "icons" ("icon" ++ toString size ++ "-active.png"))])

/-- C8 counterexample: the driver's actual call sequence is not the
per-size interleaving the claim describes — the second invocation is the
size-32 normal icon, not the size-16 active icon. -/
theorem driver_call_order_cex :
    driverCalls ≠ claimedCallOrder ∧
    driverCalls[1]? = some (32, "#4285f4", false, "icons/icon32.png") ∧
    claimedCallOrder[1]? = some (16, "#34a853", true, "icons/icon16-active.png") := by
  refine ⟨?_, rfl, rfl⟩
  decide

/-- C8 amended: the driver runs two passes over the four fixed sizes — the
first loop invokes the renderer on the normal/blue variant at
`icons/icon{size}.png` for every size, then the second loop invokes it on
the active/green variant at `icons/icon{size}-active.png` for every size. -/
theorem driver_call_order :
    driverCalls =
      [(16, "#4285f4", false, "icons/icon16.png"),
       (32, "#4285f4", false, "icons/icon32.png"),
       (48, "#4285f4", false, "icons/icon48.png"),
       (128, "#4285f4", false, "icons/icon128.png"),
       (16, "#34a853", true, "icons/icon16-active.png"),
       (32, "#34a853", true, "icons/icon32-active.png"),
       (48, "#34a853", true, "icons/icon48-active.png"),
       (128, "#34a853", true, "icons/icon128-active.png")] := rfl

end MeetTracker
